import Mathlib

/-!
# Adaptive sampling strategy-store factory

Shallow embedding of `plugin/sampling/strategystore/adaptive/factory.go`.

The Go methods mutate the receiver `*Factory` and call collaborators (the
sampling-store factory, the election participant, the strategy store and the
aggregator).  Here every method is a pure function

    Factory → World → arguments → Run result

that returns the outcome of the call together with the receiver after the call
and the world after the call.  The world holds the sequence of collaborator
calls made so far (in program order) and the next free address for a
participant allocated by `NewElectionParticipant`.

Go values that may be nil (interfaces, pointers, `error`) are `Option`s with
`none` for nil.  A nil dereference, in the code of the file itself or in a
collaborator that is handed a nil value it reads, is the outcome `panicked`; the
assignments and calls made before it stay visible in the receiver and in the
world.
-/

namespace Adaptive

/-! ## Values of types declared outside the file -/

/-- A Go `error` value that is not nil, identified by its message. -/
structure Err where
  msg : String
deriving DecidableEq, Repr

/-- A `*zap.Logger` handle. The file only stores and passes loggers on. -/
structure Logger where
  ref : Nat
deriving DecidableEq, Repr

/-- A `metrics.Factory` handle. The file only stores and passes it on. -/
structure MetricsFactory where
  ref : Nat
deriving DecidableEq, Repr

/-- A `distributedlock.Lock` implementation (non-nil interface value). -/
structure Lock where
  ref : Nat
deriving DecidableEq, Repr

/-- A `samplingstore.Store` implementation (non-nil interface value). -/
structure Store where
  ref : Nat
deriving DecidableEq, Repr

/-- The value `zap.NewNop()`. -/
def zapNewNop : Logger := ⟨0⟩

/-- The value `metrics.NullFactory`. -/
def metricsNullFactory : MetricsFactory := ⟨0⟩

/-- Modelled from the spec: the type `Options` is declared outside the file; the
spec (§3, §6) gives it the fields `aggregationBuckets : int`,
`followerLeaseRefreshInterval : duration` and `leaderLeaseRefreshInterval :
duration`, which are the three fields the file reads. Durations are Go
`time.Duration` values (integers); no arithmetic is done on them here. -/
structure Options where
  AggregationBuckets : Int
  FollowerLeaseRefreshInterval : Int
  LeaderLeaseRefreshInterval : Int
deriving DecidableEq, Repr

/-- The zero value `Options{}`. -/
def Options.zero : Options := ⟨0, 0, 0⟩

/-- The struct literal `leaderelection.ElectionParticipantOptions{...}` built at
lines 82-86. -/
structure ElectionParticipantOptions where
  FollowerLeaseRefreshInterval : Int
  LeaderLeaseRefreshInterval : Int
  Logger : Logger
deriving DecidableEq, Repr

/-- Modelled from the spec: the type `leaderelection.DistributedElectionParticipant`
is declared outside the file. Per the spec (§3) an ElectionParticipant holds the
lock handle, the resource name and the two intervals it was constructed with.
The value below is what a non-nil pointer to one refers to: its address and the
three constructor arguments. -/
structure Participant where
  addr : Nat
  lock : Option Lock
  resourceName : String
  opts : ElectionParticipantOptions
deriving DecidableEq, Repr

/-- The strategy store (FollowerServer) returned by `NewStrategyStore`. -/
structure StrategyStore where
  ref : Nat
deriving DecidableEq, Repr

/-- A `strategystore.Aggregator` implementation (PrimaryWorker), non-nil. -/
structure Aggregator where
  ref : Nat
deriving DecidableEq, Repr

/-- The interface `storage.SamplingStoreFactory` as one call of `Initialize` sees
it: the pair returned by `CreateLock()` and the pair returned by
`CreateSamplingStore(n)`. Go returns a value and an error side by side; the code
stores the value whether or not the error is nil, so both are kept. -/
structure SamplingStoreFactory where
  CreateLock : Option Lock × Option Err
  CreateSamplingStore : Int → Option Store × Option Err

/-- Declarations of the repository that the file uses but does not contain: the
constant `defaultResourceName`, the constructors `NewStrategyStore` and
`NewAggregator` of package `adaptive`, and the result of
`(*DistributedElectionParticipant).Close`. They are parameters of the
embedding. -/
structure Pkg where
  defaultResourceName : String
  NewStrategyStore : Options → Logger → Option Participant → Option Store → StrategyStore
  NewAggregator : Options → Logger → MetricsFactory → Option Participant → Option Store →
    Option Aggregator × Option Err
  participantClose : Participant → Option Err

/-! ## Observable calls -/

/-- One call made on a collaborator. `lockOp`, `storeOp`, `strategyStoreClose`
and `aggregatorClose` stand for the remaining operations of the lock, the
sampling store and the two workers; the file never makes them. -/
inductive Event where
  | createLock
  | createSamplingStore (buckets : Int)
  | newElectionParticipant (p : Participant)
  | participantStart (p : Participant)
  | participantClose (p : Participant)
  | newStrategyStore (o : Options) (lg : Logger) (p : Option Participant) (st : Option Store)
  | newAggregator (o : Options) (lg : Logger) (mf : MetricsFactory) (p : Option Participant)
      (st : Option Store)
  | strategyStoreStart (s : StrategyStore)
  | aggregatorStart (a : Aggregator)
  | strategyStoreClose (s : StrategyStore)
  | aggregatorClose (a : Aggregator)
  | lockOp (l : Lock)
  | storeOp (st : Store)
deriving DecidableEq, Repr

/-- Everything outside the receiver: the calls made so far, oldest first, and the
next free participant address. -/
structure World where
  trace : List Event
  next : Nat
deriving DecidableEq, Repr

/-- Append one call to the trace. -/
def World.emit (w : World) (e : Event) : World :=
  { w with trace := w.trace ++ [e] }

/-- The outcome of a call: it returns a value, or it panics on a nil
dereference. -/
inductive Outcome (α : Type) where
  | returned (v : α)
  | panicked
deriving DecidableEq, Repr

/-! ## The Factory -/

/-- The struct `Factory` (lines 36-43). `options` is a pointer and may be nil in
a zero-value `Factory`. -/
structure Factory where
  options : Option Options
  logger : Logger
  metricsFactory : MetricsFactory
  lock : Option Lock
  store : Option Store
  participant : Option Participant
deriving DecidableEq, Repr

/-- The result of running a method: outcome, receiver afterwards, world
afterwards. -/
structure Run (α : Type) where
  out : Outcome α
  factory : Factory
  world : World
deriving DecidableEq, Repr

/-- The function `NewFactory` (lines 46-54); `participant` is not listed in the
literal and has the zero value nil. -/
def NewFactory : Factory :=
  { options := some Options.zero
    logger := zapNewNop
    metricsFactory := metricsNullFactory
    lock := none
    store := none
    participant := none }

/-- The error of line 69. -/
def errNilFactory : Err :=
  ⟨"sampling store factory is nil. Please configure a backend that supports adaptive sampling"⟩

/-- Modelled from the spec: `leaderelection.NewElectionParticipant` is declared
outside the file. The call `NewElectionParticipant(lock, name, opts)` allocates a
participant at a fresh address holding its arguments (§2, §3) and does not
fail. -/
def NewElectionParticipant (w : World) (lock : Option Lock) (name : String)
    (opts : ElectionParticipantOptions) : Participant × World :=
  let p : Participant := ⟨w.next, lock, name, opts⟩
  (p, { trace := w.trace ++ [Event.newElectionParticipant p], next := w.next + 1 })

/-- Modelled from the spec: `(*DistributedElectionParticipant).Start` is declared
outside the file. It begins the background loop and has no return value (§4.1);
the call is recorded. -/
def Participant.Start (p : Participant) (w : World) : World :=
  w.emit (Event.participantStart p)

/-- Modelled from the spec: `(*DistributedElectionParticipant).Close` is declared
outside the file. It stops the loop and releases the lock if held (§4.1), which
reads the receiver, so on a nil receiver it is a nil dereference; on a
participant p it is recorded and returns the package's result for p. -/
def participantCloseCall (pkg : Pkg) (p : Option Participant) (w : World) :
    Outcome (Option Err) × World :=
  match p with
  | none => (Outcome.panicked, w)
  | some q => (Outcome.returned (pkg.participantClose q), w.emit (Event.participantClose q))

/-- Modelled from the spec: `(*StrategyStore).Start` is declared outside the file.
The strategy store (FollowerServer) reads the latest artifact from the sampling
store it was constructed with (§2, §4.3), and does so first when it is started;
on a strategy store constructed with a nil store this is a nil dereference
inside Start. The call is recorded in both cases. `st` is the store that `s` was
constructed with. -/
def strategyStoreStartCall (s : StrategyStore) (st : Option Store) (w : World) :
    Outcome Unit × World :=
  match st with
  | none => (Outcome.panicked, w.emit (Event.strategyStoreStart s))
  | some _ => (Outcome.returned (), w.emit (Event.strategyStoreStart s))

/-- The method `Factory.Initialize` (lines 67-90). -/
def Factory.Initialize (pkg : Pkg) (f : Factory) (w : World) (metricsFactory : MetricsFactory)
    (ssFactory : Option SamplingStoreFactory) (logger : Logger) : Run (Option Err) :=
  match ssFactory with
  | none => ⟨.returned (some errNilFactory), f, w⟩
  | some ss =>
    let f1 := { f with logger := logger }
    let f2 := { f1 with metricsFactory := metricsFactory }
    -- f.lock, err = ssFactory.CreateLock()
    let w1 := w.emit Event.createLock
    let f3 := { f2 with lock := ss.CreateLock.1 }
    match ss.CreateLock.2 with
    | some err => ⟨.returned (some err), f3, w1⟩
    | none =>
      -- f.store, err = ssFactory.CreateSamplingStore(f.options.AggregationBuckets)
      match f3.options with
      | none => ⟨.panicked, f3, w1⟩
      | some o =>
        let w2 := w1.emit (Event.createSamplingStore o.AggregationBuckets)
        let r := ss.CreateSamplingStore o.AggregationBuckets
        let f4 := { f3 with store := r.1 }
        match r.2 with
        | some err => ⟨.returned (some err), f4, w2⟩
        | none =>
          let pw := NewElectionParticipant w2 f4.lock pkg.defaultResourceName
            { FollowerLeaseRefreshInterval := o.FollowerLeaseRefreshInterval
              LeaderLeaseRefreshInterval := o.LeaderLeaseRefreshInterval
              Logger := f4.logger }
          let f5 := { f4 with participant := some pw.1 }
          -- f.participant.Start()
          let w4 := pw.1.Start pw.2
          ⟨.returned none, f5, w4⟩

/-- The method `Factory.CreateStrategyStore` (lines 93-104). The result is the
triple (strategy store, aggregator, error). `*f.options` panics on a nil
pointer; `s.Start()` (line 100) panics when `s` was constructed with a nil
store, and then line 101 is not reached; `a.Start()` panics when `a` is a nil
interface value. -/
def Factory.CreateStrategyStore (pkg : Pkg) (f : Factory) (w : World) :
    Run (Option StrategyStore × Option Aggregator × Option Err) :=
  match f.options with
  | none => ⟨.panicked, f, w⟩
  | some o =>
    let s := pkg.NewStrategyStore o f.logger f.participant f.store
    let w1 := w.emit (Event.newStrategyStore o f.logger f.participant f.store)
    let r := pkg.NewAggregator o f.logger f.metricsFactory f.participant f.store
    let w2 := w1.emit (Event.newAggregator o f.logger f.metricsFactory f.participant f.store)
    match r.2 with
    | some err => ⟨.returned (none, none, some err), f, w2⟩
    | none =>
      -- s.Start()
      let started := strategyStoreStartCall s f.store w2
      match started.1 with
      | .panicked => ⟨.panicked, f, started.2⟩
      | .returned _ =>
        -- a.Start()
        match r.1 with
        | none => ⟨.panicked, f, started.2⟩
        | some a =>
          let w4 := started.2.emit (Event.aggregatorStart a)
          ⟨.returned (some s, some a, none), f, w4⟩

/-- The method `Factory.Close` (lines 107-109): the result of
`f.participant.Close()`; no field is assigned. -/
def Factory.Close (pkg : Pkg) (f : Factory) (w : World) : Run (Option Err) :=
  let r := participantCloseCall pkg f.participant w
  ⟨r.1, f, r.2⟩

/-! ## Sample collaborators

Concrete values at which the statements below are evaluated. -/

/-- A world in which nothing has happened yet. -/
def emptyWorld : World := ⟨[], 0⟩

/-- A package whose aggregator constructor succeeds and whose participant closes
without error. -/
def pkgOk : Pkg :=
  { defaultResourceName := "sampling_store_leader"
    NewStrategyStore := fun _ _ _ _ => ⟨1⟩
    NewAggregator := fun _ _ _ _ _ => (some ⟨2⟩, none)
    participantClose := fun _ => none }

/-- A package whose aggregator constructor fails. -/
def pkgAggFails : Pkg :=
  { pkgOk with NewAggregator := fun _ _ _ _ _ => (none, some ⟨"cannot build aggregator"⟩) }

/-- A package whose participant fails to release its lock on Close. -/
def pkgCloseFails : Pkg :=
  { pkgOk with participantClose := fun _ => some ⟨"failed to release lock"⟩ }

/-- A backend on which both constructions succeed. -/
def ssOk : SamplingStoreFactory :=
  { CreateLock := (some ⟨7⟩, none)
    CreateSamplingStore := fun _ => (some ⟨8⟩, none) }

/-- A second backend on which both constructions succeed. -/
def ssOther : SamplingStoreFactory :=
  { CreateLock := (some ⟨17⟩, none)
    CreateSamplingStore := fun _ => (some ⟨18⟩, none) }

/-- A backend whose lock cannot be created. -/
def ssLockFails : SamplingStoreFactory :=
  { CreateLock := (none, some ⟨"lock unavailable"⟩)
    CreateSamplingStore := fun _ => (some ⟨8⟩, none) }

/-- A backend whose sampling store cannot be created. -/
def ssStoreFails : SamplingStoreFactory :=
  { CreateLock := (some ⟨7⟩, none)
    CreateSamplingStore := fun _ => (none, some ⟨"store unavailable"⟩) }

/-- A factory configured with non-zero options, as after `InitFromViper`. -/
def configuredFactory : Factory :=
  { NewFactory with options := some ⟨10, 60, 5⟩ }

/-! ## Initialize -/

/-- C1: with a nil sampling-store factory, Initialize returns the error with the
message of line 69 and does nothing else: the receiver is returned as it was
(every field unchanged) and the world is as it was (no call on any collaborator,
no participant allocated). -/
theorem Initialize_nil_factory (pkg : Pkg) (f : Factory) (w : World) (mf : MetricsFactory)
    (lg : Logger) :
    (Factory.Initialize pkg f w mf none lg).out = Outcome.returned (some errNilFactory)
    ∧ errNilFactory.msg
        = "sampling store factory is nil. Please configure a backend that supports adaptive sampling"
    ∧ (Factory.Initialize pkg f w mf none lg).factory = f
    ∧ (Factory.Initialize pkg f w mf none lg).world = w :=
  ⟨rfl, rfl, rfl, rfl⟩

/-- C2: with a non-nil sampling-store factory, when CreateLock returns error e,
Initialize returns e itself after the single call CreateLock; when CreateLock
succeeds and CreateSamplingStore (called with the options' AggregationBuckets)
returns error e, Initialize returns e itself after exactly the two calls
CreateLock and CreateSamplingStore. In both cases no participant is allocated,
constructed or started. -/
theorem Initialize_construction_error (pkg : Pkg) (f : Factory) (w : World)
    (mf : MetricsFactory) (ss : SamplingStoreFactory) (lg : Logger) (e : Err) :
    (ss.CreateLock.2 = some e →
        (Factory.Initialize pkg f w mf (some ss) lg).out = Outcome.returned (some e)
        ∧ (Factory.Initialize pkg f w mf (some ss) lg).world
            = ⟨w.trace ++ [Event.createLock], w.next⟩)
    ∧ (∀ o : Options, ss.CreateLock.2 = none → f.options = some o →
        (ss.CreateSamplingStore o.AggregationBuckets).2 = some e →
        (Factory.Initialize pkg f w mf (some ss) lg).out = Outcome.returned (some e)
        ∧ (Factory.Initialize pkg f w mf (some ss) lg).world
            = ⟨w.trace ++ [Event.createLock, Event.createSamplingStore o.AggregationBuckets],
                w.next⟩) := by
  constructor
  · intro h
    simp [Factory.Initialize, World.emit, h]
  · intro o h1 h2 h3
    simp [Factory.Initialize, World.emit, h1, h2, h3]

/-- Witness for C2 on a backend whose lock creation fails and on one whose store
creation fails. -/
theorem Initialize_construction_error_witness :
    ((Factory.Initialize pkgOk NewFactory emptyWorld ⟨3⟩ (some ssLockFails) ⟨4⟩).out
        = Outcome.returned (some ⟨"lock unavailable"⟩)
      ∧ (Factory.Initialize pkgOk NewFactory emptyWorld ⟨3⟩ (some ssLockFails) ⟨4⟩).world
        = ⟨[Event.createLock], 0⟩)
    ∧ ((Factory.Initialize pkgOk configuredFactory emptyWorld ⟨3⟩ (some ssStoreFails) ⟨4⟩).out
        = Outcome.returned (some ⟨"store unavailable"⟩)
      ∧ (Factory.Initialize pkgOk configuredFactory emptyWorld ⟨3⟩ (some ssStoreFails) ⟨4⟩).world
        = ⟨[Event.createLock, Event.createSamplingStore 10], 0⟩) :=
  ⟨(Initialize_construction_error pkgOk NewFactory emptyWorld ⟨3⟩ ssLockFails ⟨4⟩
      ⟨"lock unavailable"⟩).1 rfl,
   (Initialize_construction_error pkgOk configuredFactory emptyWorld ⟨3⟩ ssStoreFails ⟨4⟩
      ⟨"store unavailable"⟩).2 ⟨10, 60, 5⟩ rfl rfl rfl⟩

/-- C3 fails as stated: on a fresh factory, Initialize with a backend whose
CreateLock fails returns that error, yet the logger and metricsFactory fields
have been overwritten with the arguments of the call (lines 72-73 run before
CreateLock). -/
theorem Initialize_error_not_atomic :
    (Factory.Initialize pkgOk NewFactory emptyWorld ⟨3⟩ (some ssLockFails) ⟨4⟩).out
      = Outcome.returned (some ⟨"lock unavailable"⟩)
    ∧ (Factory.Initialize pkgOk NewFactory emptyWorld ⟨3⟩ (some ssLockFails) ⟨4⟩).factory.logger
      ≠ NewFactory.logger
    ∧ (Factory.Initialize pkgOk NewFactory emptyWorld ⟨3⟩ (some ssLockFails)
        ⟨4⟩).factory.metricsFactory
      ≠ NewFactory.metricsFactory :=
  ⟨rfl, by decide, by decide⟩

/-- C3 amended: whenever Initialize returns an error, no participant is
allocated, constructed or started (the only calls made are CreateLock and
CreateSamplingStore) and the options and participant fields are unchanged. With
a nil factory the whole receiver is unchanged. With a non-nil factory the
logger and metricsFactory fields hold the arguments of the call, the lock field
holds the value CreateLock returned, and the store field is unchanged when
CreateLock failed and otherwise holds the value CreateSamplingStore returned
beside its error. -/
theorem Initialize_error_state (pkg : Pkg) (f : Factory) (w : World) (mf : MetricsFactory)
    (ssf : Option SamplingStoreFactory) (lg : Logger) (e : Err)
    (h : (Factory.Initialize pkg f w mf ssf lg).out = Outcome.returned (some e)) :
    (Factory.Initialize pkg f w mf ssf lg).factory.options = f.options
    ∧ (Factory.Initialize pkg f w mf ssf lg).factory.participant = f.participant
    ∧ (Factory.Initialize pkg f w mf ssf lg).world.next = w.next
    ∧ (∃ evs, (Factory.Initialize pkg f w mf ssf lg).world.trace = w.trace ++ evs
        ∧ ∀ ev ∈ evs, ev = Event.createLock ∨ ∃ n, ev = Event.createSamplingStore n)
    ∧ (ssf = none → (Factory.Initialize pkg f w mf ssf lg).factory = f)
    ∧ (∀ ss, ssf = some ss →
        (Factory.Initialize pkg f w mf ssf lg).factory.logger = lg
        ∧ (Factory.Initialize pkg f w mf ssf lg).factory.metricsFactory = mf
        ∧ (Factory.Initialize pkg f w mf ssf lg).factory.lock = ss.CreateLock.1
        ∧ (ss.CreateLock.2 ≠ none →
            (Factory.Initialize pkg f w mf ssf lg).factory.store = f.store)
        ∧ (ss.CreateLock.2 = none → ∃ o, f.options = some o
            ∧ (Factory.Initialize pkg f w mf ssf lg).factory.store
                = (ss.CreateSamplingStore o.AggregationBuckets).1)) := by
  cases ssf with
  | none =>
    refine ⟨rfl, rfl, rfl, ⟨[], by simp [Factory.Initialize], by simp⟩, fun _ => rfl, ?_⟩
    intro ss hss
    cases hss
  | some ss =>
    cases hL : ss.CreateLock.2 with
    | some el =>
      simp [Factory.Initialize, World.emit, hL]
    | none =>
      cases ho : f.options with
      | none => simp [Factory.Initialize, hL, ho] at h
      | some o =>
        cases hS : (ss.CreateSamplingStore o.AggregationBuckets).2 with
        | none => simp [Factory.Initialize, hL, ho, hS] at h
        | some es =>
          simp [Factory.Initialize, World.emit, hL, ho, hS]

/-- Witness for C3 amended on a fresh factory and a backend whose lock creation
fails. -/
theorem Initialize_error_state_witness :
    (Factory.Initialize pkgOk NewFactory emptyWorld ⟨3⟩ (some ssLockFails) ⟨4⟩).factory.options
      = NewFactory.options
    ∧ (Factory.Initialize pkgOk NewFactory emptyWorld ⟨3⟩ (some ssLockFails)
        ⟨4⟩).factory.participant = NewFactory.participant
    ∧ (Factory.Initialize pkgOk NewFactory emptyWorld ⟨3⟩ (some ssLockFails) ⟨4⟩).world.next
      = emptyWorld.next :=
  have h := Initialize_error_state pkgOk NewFactory emptyWorld ⟨3⟩ (some ssLockFails) ⟨4⟩
    ⟨"lock unavailable"⟩ rfl
  ⟨h.1, h.2.1, h.2.2.1⟩

/-- C4: with a non-nil sampling-store factory whose CreateLock returns lock L
without error and whose CreateSamplingStore, called with the options'
AggregationBuckets, returns store S without error, Initialize returns nil. The
receiver then holds L, S, the supplied logger and metrics factory, its old
options, and a participant constructed from L, defaultResourceName and the
options' follower and leader intervals (each in the field of the same name) with
the supplied logger. The calls made are, in order, CreateLock,
CreateSamplingStore, NewElectionParticipant and one Start on that participant. -/
theorem Initialize_success (pkg : Pkg) (f : Factory) (w : World) (mf : MetricsFactory)
    (ss : SamplingStoreFactory) (lg : Logger) (o : Options) (L : Option Lock)
    (S : Option Store) (ho : f.options = some o) (hL : ss.CreateLock = (L, none))
    (hS : ss.CreateSamplingStore o.AggregationBuckets = (S, none)) :
    (Factory.Initialize pkg f w mf (some ss) lg).out = Outcome.returned none
    ∧ (Factory.Initialize pkg f w mf (some ss) lg).factory
        = { options := some o
            logger := lg
            metricsFactory := mf
            lock := L
            store := S
            participant := some
              { addr := w.next
                lock := L
                resourceName := pkg.defaultResourceName
                opts :=
                  { FollowerLeaseRefreshInterval := o.FollowerLeaseRefreshInterval
                    LeaderLeaseRefreshInterval := o.LeaderLeaseRefreshInterval
                    Logger := lg } } }
    ∧ (Factory.Initialize pkg f w mf (some ss) lg).world
        = { trace := w.trace ++
              [ Event.createLock,
                Event.createSamplingStore o.AggregationBuckets,
                Event.newElectionParticipant
                  ⟨w.next, L, pkg.defaultResourceName,
                    ⟨o.FollowerLeaseRefreshInterval, o.LeaderLeaseRefreshInterval, lg⟩⟩,
                Event.participantStart
                  ⟨w.next, L, pkg.defaultResourceName,
                    ⟨o.FollowerLeaseRefreshInterval, o.LeaderLeaseRefreshInterval, lg⟩⟩ ]
            next := w.next + 1 } := by
  simp [Factory.Initialize, World.emit, NewElectionParticipant, Participant.Start, ho, hL, hS]

/-- Witness for C4: a configured factory (10 buckets, follower interval 60,
leader interval 5) initialised on a backend that yields lock 7 and store 8. -/
theorem Initialize_success_witness :
    (Factory.Initialize pkgOk configuredFactory emptyWorld ⟨3⟩ (some ssOk) ⟨4⟩).out
      = Outcome.returned none
    ∧ (Factory.Initialize pkgOk configuredFactory emptyWorld ⟨3⟩ (some ssOk) ⟨4⟩).factory
      = { options := some ⟨10, 60, 5⟩
          logger := ⟨4⟩
          metricsFactory := ⟨3⟩
          lock := some ⟨7⟩
          store := some ⟨8⟩
          participant := some ⟨0, some ⟨7⟩, "sampling_store_leader", ⟨60, 5, ⟨4⟩⟩⟩ }
    ∧ (Factory.Initialize pkgOk configuredFactory emptyWorld ⟨3⟩ (some ssOk) ⟨4⟩).world
      = { trace :=
            [ Event.createLock,
              Event.createSamplingStore 10,
              Event.newElectionParticipant
                ⟨0, some ⟨7⟩, "sampling_store_leader", ⟨60, 5, ⟨4⟩⟩⟩,
              Event.participantStart ⟨0, some ⟨7⟩, "sampling_store_leader", ⟨60, 5, ⟨4⟩⟩⟩ ]
          next := 1 } :=
  Initialize_success pkgOk configuredFactory emptyWorld ⟨3⟩ ssOk ⟨4⟩ ⟨10, 60, 5⟩ (some ⟨7⟩)
    (some ⟨8⟩) rfl rfl rfl

/-- A run of Initialize that returns nil had a non-nil backend on which both
constructions succeeded, and a receiver with non-nil options; the receiver
afterwards has a participant allocated at the old next address, and the next
address has moved by one. -/
theorem Initialize_ok_inv (pkg : Pkg) (f0 : Factory) (w0 : World) (mf : MetricsFactory)
    (ssf : Option SamplingStoreFactory) (lg : Logger) (f : Factory) (w1 : World)
    (hinit : Factory.Initialize pkg f0 w0 mf ssf lg = ⟨Outcome.returned none, f, w1⟩) :
    ∃ o p, f.options = some o ∧ f0.options = some o ∧ f.participant = some p
      ∧ p.addr = w0.next ∧ w1.next = w0.next + 1 := by
  cases ssf with
  | none => simp [Factory.Initialize] at hinit
  | some ss =>
    cases hL : ss.CreateLock.2 with
    | some el => simp [Factory.Initialize, hL] at hinit
    | none =>
      cases ho : f0.options with
      | none => simp [Factory.Initialize, hL, ho] at hinit
      | some o =>
        cases hS : (ss.CreateSamplingStore o.AggregationBuckets).2 with
        | some es => simp [Factory.Initialize, hL, ho, hS] at hinit
        | none =>
          simp [Factory.Initialize, World.emit, NewElectionParticipant, Participant.Start, hL, ho, hS] at hinit
          obtain ⟨hf, hw⟩ := hinit
          subst hf
          subst hw
          exact ⟨o, _, rfl, rfl, rfl, rfl, rfl⟩

/-- C8 fails as stated: a configured factory is initialised on one backend and then,
without a Close, on another. The second Initialize returns nil, and the trace
shows two participants constructed and started, at addresses 0 and 1; the first
one is never closed and the receiver now holds the second. -/
theorem Initialize_twice_not_rejected :
    (Factory.Initialize pkgOk configuredFactory emptyWorld ⟨3⟩ (some ssOk) ⟨4⟩).out
      = Outcome.returned none
    ∧ (Factory.Initialize pkgOk
        (Factory.Initialize pkgOk configuredFactory emptyWorld ⟨3⟩ (some ssOk) ⟨4⟩).factory
        (Factory.Initialize pkgOk configuredFactory emptyWorld ⟨3⟩ (some ssOk) ⟨4⟩).world
        ⟨3⟩ (some ssOther) ⟨4⟩).out = Outcome.returned none
    ∧ (Factory.Initialize pkgOk
        (Factory.Initialize pkgOk configuredFactory emptyWorld ⟨3⟩ (some ssOk) ⟨4⟩).factory
        (Factory.Initialize pkgOk configuredFactory emptyWorld ⟨3⟩ (some ssOk) ⟨4⟩).world
        ⟨3⟩ (some ssOther) ⟨4⟩).world.trace
      = [ Event.createLock,
          Event.createSamplingStore 10,
          Event.newElectionParticipant ⟨0, some ⟨7⟩, "sampling_store_leader", ⟨60, 5, ⟨4⟩⟩⟩,
          Event.participantStart ⟨0, some ⟨7⟩, "sampling_store_leader", ⟨60, 5, ⟨4⟩⟩⟩,
          Event.createLock,
          Event.createSamplingStore 10,
          Event.newElectionParticipant ⟨1, some ⟨17⟩, "sampling_store_leader", ⟨60, 5, ⟨4⟩⟩⟩,
          Event.participantStart ⟨1, some ⟨17⟩, "sampling_store_leader", ⟨60, 5, ⟨4⟩⟩⟩ ]
    ∧ (Factory.Initialize pkgOk
        (Factory.Initialize pkgOk configuredFactory emptyWorld ⟨3⟩ (some ssOk) ⟨4⟩).factory
        (Factory.Initialize pkgOk configuredFactory emptyWorld ⟨3⟩ (some ssOk) ⟨4⟩).world
        ⟨3⟩ (some ssOther) ⟨4⟩).factory.participant
      = some ⟨1, some ⟨17⟩, "sampling_store_leader", ⟨60, 5, ⟨4⟩⟩⟩ :=
  ⟨rfl, rfl, rfl, rfl⟩

/-- C8 amended: Initialize has no guard against being repeated. Let f be the
receiver after a successful Initialize and w any later world. A second
Initialize on a non-nil backend whose CreateLock and CreateSamplingStore succeed
returns nil, constructs and starts exactly one more participant, at a fresh
address different from that of the first one, and stores it in the participant
field in place of the first; no Close is called on the first. A second
Initialize that returns an error allocates no participant and leaves the first
one in the participant field. -/
theorem Initialize_twice (pkg : Pkg) (f0 : Factory) (w0 : World) (mf : MetricsFactory)
    (ssf : Option SamplingStoreFactory) (lg : Logger) (f : Factory) (w1 w : World)
    (mf2 : MetricsFactory) (lg2 : Logger)
    (hinit : Factory.Initialize pkg f0 w0 mf ssf lg = ⟨Outcome.returned none, f, w1⟩)
    (hw : w1.next ≤ w.next) :
    (∀ (ss2 : SamplingStoreFactory) (o : Options) (L : Option Lock) (S : Option Store),
        f.options = some o → ss2.CreateLock = (L, none) →
        ss2.CreateSamplingStore o.AggregationBuckets = (S, none) →
        ∃ p1 p2, f.participant = some p1
          ∧ (Factory.Initialize pkg f w mf2 (some ss2) lg2).out = Outcome.returned none
          ∧ (Factory.Initialize pkg f w mf2 (some ss2) lg2).factory.participant = some p2
          ∧ p2.addr ≠ p1.addr
          ∧ (Factory.Initialize pkg f w mf2 (some ss2) lg2).world.trace
              = w.trace ++
                [ Event.createLock,
                  Event.createSamplingStore o.AggregationBuckets,
                  Event.newElectionParticipant p2,
                  Event.participantStart p2 ])
    ∧ (∀ (ssf2 : Option SamplingStoreFactory) (e : Err),
        (Factory.Initialize pkg f w mf2 ssf2 lg2).out = Outcome.returned (some e) →
        (Factory.Initialize pkg f w mf2 ssf2 lg2).factory.participant = f.participant
        ∧ (Factory.Initialize pkg f w mf2 ssf2 lg2).world.next = w.next) := by
  obtain ⟨o1, p1, -, -, hp1, ha1, hn1⟩ := Initialize_ok_inv pkg f0 w0 mf ssf lg f w1 hinit
  constructor
  · intro ss2 o L S ho hL hS
    refine ⟨p1, ⟨w.next, L, pkg.defaultResourceName,
      ⟨o.FollowerLeaseRefreshInterval, o.LeaderLeaseRefreshInterval, lg2⟩⟩, hp1, ?_, ?_, ?_, ?_⟩
    · simp [Factory.Initialize, ho, hL, hS]
    · simp [Factory.Initialize, NewElectionParticipant, Participant.Start, World.emit, ho, hL, hS]
    · simp only [ha1]
      omega
    · simp [Factory.Initialize, NewElectionParticipant, Participant.Start, World.emit, ho, hL, hS]
  · intro ssf2 e he
    cases ssf2 with
    | none => exact ⟨rfl, rfl⟩
    | some ss2 =>
      cases hL : ss2.CreateLock.2 with
      | some el => simp [Factory.Initialize, World.emit, hL]
      | none =>
        cases ho : f.options with
        | none => simp [Factory.Initialize, hL, ho] at he
        | some o =>
          cases hS : (ss2.CreateSamplingStore o.AggregationBuckets).2 with
          | none => simp [Factory.Initialize, hL, ho, hS] at he
          | some es => simp [Factory.Initialize, World.emit, hL, ho, hS]

/-- Witness for C8 amended: a fresh factory initialised on one backend, then
again in the world that the first call left. -/
theorem Initialize_twice_witness :
    ∃ p1 p2 : Participant,
      (Factory.Initialize pkgOk NewFactory emptyWorld ⟨3⟩ (some ssOk) ⟨4⟩).factory.participant
        = some p1
      ∧ (Factory.Initialize pkgOk
          (Factory.Initialize pkgOk NewFactory emptyWorld ⟨3⟩ (some ssOk) ⟨4⟩).factory
          (Factory.Initialize pkgOk NewFactory emptyWorld ⟨3⟩ (some ssOk) ⟨4⟩).world
          ⟨5⟩ (some ssOther) ⟨6⟩).factory.participant = some p2
      ∧ p2.addr ≠ p1.addr :=
  have h := (Initialize_twice pkgOk NewFactory emptyWorld ⟨3⟩ (some ssOk) ⟨4⟩
    (Factory.Initialize pkgOk NewFactory emptyWorld ⟨3⟩ (some ssOk) ⟨4⟩).factory
    (Factory.Initialize pkgOk NewFactory emptyWorld ⟨3⟩ (some ssOk) ⟨4⟩).world
    (Factory.Initialize pkgOk NewFactory emptyWorld ⟨3⟩ (some ssOk) ⟨4⟩).world
    ⟨5⟩ ⟨6⟩ rfl (Nat.le_refl _)).1 ssOther Options.zero (some ⟨17⟩) (some ⟨18⟩) rfl rfl rfl
  match h with
  | ⟨p1, p2, h1, _, h2, h3, _⟩ => ⟨p1, p2, h1, h2, h3⟩

/-! ## CreateStrategyStore -/

/-- CreateStrategyStore assigns no field: the receiver is the same afterwards,
whatever the outcome. -/
theorem CreateStrategyStore_receiver (pkg : Pkg) (f : Factory) (w : World) :
    (Factory.CreateStrategyStore pkg f w).factory = f := by
  simp only [Factory.CreateStrategyStore]
  repeat' (first | rfl | split)

/-- C5: when NewAggregator, called with the receiver's options, logger, metrics
factory, participant and store, returns error e, CreateStrategyStore returns
(nil, nil, e). The only calls made are the two constructors, NewStrategyStore
and then NewAggregator: Start is called on no strategy store and on no
aggregator, and the receiver is unchanged. -/
theorem CreateStrategyStore_aggregator_error (pkg : Pkg) (f : Factory) (w : World)
    (o : Options) (e : Err) (ho : f.options = some o)
    (hA : (pkg.NewAggregator o f.logger f.metricsFactory f.participant f.store).2 = some e) :
    (Factory.CreateStrategyStore pkg f w).out = Outcome.returned (none, none, some e)
    ∧ (Factory.CreateStrategyStore pkg f w).factory = f
    ∧ (Factory.CreateStrategyStore pkg f w).world
        = ⟨w.trace ++
            [ Event.newStrategyStore o f.logger f.participant f.store,
              Event.newAggregator o f.logger f.metricsFactory f.participant f.store ],
           w.next⟩
    ∧ (∀ ev ∈ (Factory.CreateStrategyStore pkg f w).world.trace.drop w.trace.length,
        (∀ s, ev ≠ Event.strategyStoreStart s) ∧ (∀ a, ev ≠ Event.aggregatorStart a)) := by
  simp [Factory.CreateStrategyStore, World.emit, ho, hA]

/-- Witness for C5: an initialised factory in a package whose aggregator
constructor fails. -/
theorem CreateStrategyStore_aggregator_error_witness :
    (Factory.CreateStrategyStore pkgAggFails
        (Factory.Initialize pkgAggFails configuredFactory emptyWorld ⟨3⟩ (some ssOk) ⟨4⟩).factory
        emptyWorld).out
      = Outcome.returned (none, none, some ⟨"cannot build aggregator"⟩)
    ∧ (Factory.CreateStrategyStore pkgAggFails
        (Factory.Initialize pkgAggFails configuredFactory emptyWorld ⟨3⟩ (some ssOk) ⟨4⟩).factory
        emptyWorld).world.trace
      = [ Event.newStrategyStore ⟨10, 60, 5⟩ ⟨4⟩
            (some ⟨0, some ⟨7⟩, "sampling_store_leader", ⟨60, 5, ⟨4⟩⟩⟩) (some ⟨8⟩),
          Event.newAggregator ⟨10, 60, 5⟩ ⟨4⟩ ⟨3⟩
            (some ⟨0, some ⟨7⟩, "sampling_store_leader", ⟨60, 5, ⟨4⟩⟩⟩) (some ⟨8⟩) ] :=
  have h := CreateStrategyStore_aggregator_error pkgAggFails
    (Factory.Initialize pkgAggFails configuredFactory emptyWorld ⟨3⟩ (some ssOk) ⟨4⟩).factory
    emptyWorld ⟨10, 60, 5⟩ ⟨"cannot build aggregator"⟩ rfl rfl
  ⟨h.1, congrArg World.trace h.2.2.1⟩

/-- C6 fails as stated: a configured factory whose Initialize returned an error
(the lock could not be created) has a nil participant and a nil store. In a
package whose NewAggregator returns no error, CreateStrategyStore on it does not
return an error: it calls Start on the strategy store, which panics on the nil
store (line 100). -/
theorem CreateStrategyStore_uninitialized_not_rejected :
    (Factory.Initialize pkgOk configuredFactory emptyWorld ⟨3⟩ (some ssLockFails) ⟨4⟩).out
      = Outcome.returned (some ⟨"lock unavailable"⟩)
    ∧ (Factory.Initialize pkgOk configuredFactory emptyWorld ⟨3⟩ (some ssLockFails)
        ⟨4⟩).factory.participant = none
    ∧ (Factory.Initialize pkgOk configuredFactory emptyWorld ⟨3⟩ (some ssLockFails)
        ⟨4⟩).factory.store = none
    ∧ (Factory.CreateStrategyStore pkgOk
        (Factory.Initialize pkgOk configuredFactory emptyWorld ⟨3⟩ (some ssLockFails)
          ⟨4⟩).factory
        (Factory.Initialize pkgOk configuredFactory emptyWorld ⟨3⟩ (some ssLockFails)
          ⟨4⟩).world).out
      = Outcome.panicked
    ∧ (¬ ∃ e, (Factory.CreateStrategyStore pkgOk
        (Factory.Initialize pkgOk configuredFactory emptyWorld ⟨3⟩ (some ssLockFails)
          ⟨4⟩).factory
        (Factory.Initialize pkgOk configuredFactory emptyWorld ⟨3⟩ (some ssLockFails)
          ⟨4⟩).world).out
      = Outcome.returned (none, none, some e))
    ∧ (Factory.CreateStrategyStore pkgOk
        (Factory.Initialize pkgOk configuredFactory emptyWorld ⟨3⟩ (some ssLockFails)
          ⟨4⟩).factory
        (Factory.Initialize pkgOk configuredFactory emptyWorld ⟨3⟩ (some ssLockFails)
          ⟨4⟩).world).world.trace
      = [ Event.createLock,
          Event.newStrategyStore ⟨10, 60, 5⟩ ⟨4⟩ none none,
          Event.newAggregator ⟨10, 60, 5⟩ ⟨4⟩ ⟨3⟩ none none,
          Event.strategyStoreStart ⟨1⟩ ] :=
  ⟨rfl, rfl, rfl, rfl, by rintro ⟨e, he⟩; exact Outcome.noConfusion he, rfl⟩

/-- C6 amended: CreateStrategyStore does not check that Initialize has succeeded.
On a factory with non-nil options whose store is nil (a fresh one, or one whose
Initialize failed before a store was created) it passes the receiver's
participant and the nil store to NewStrategyStore and NewAggregator as they are,
and leaves the receiver unchanged. When NewAggregator returns an error it
returns (nil, nil, that error), having called no Start. When NewAggregator
returns no error it returns nothing, neither an error nor workers: it calls
Start on the strategy store, which panics on the nil store, and no Start is
called on an aggregator. -/
theorem CreateStrategyStore_uninitialized (pkg : Pkg) (f : Factory) (w : World) (o : Options)
    (ho : f.options = some o) (hst : f.store = none) :
    (Factory.CreateStrategyStore pkg f w).factory = f
    ∧ (∀ e, (pkg.NewAggregator o f.logger f.metricsFactory f.participant none).2 = some e →
        (Factory.CreateStrategyStore pkg f w).out = Outcome.returned (none, none, some e)
        ∧ (Factory.CreateStrategyStore pkg f w).world.trace
            = w.trace ++
              [ Event.newStrategyStore o f.logger f.participant none,
                Event.newAggregator o f.logger f.metricsFactory f.participant none ])
    ∧ ((pkg.NewAggregator o f.logger f.metricsFactory f.participant none).2 = none →
        (Factory.CreateStrategyStore pkg f w).out = Outcome.panicked
        ∧ (Factory.CreateStrategyStore pkg f w).world.trace
            = w.trace ++
              [ Event.newStrategyStore o f.logger f.participant none,
                Event.newAggregator o f.logger f.metricsFactory f.participant none,
                Event.strategyStoreStart (pkg.NewStrategyStore o f.logger f.participant none) ]
        ∧ ∀ ev ∈ (Factory.CreateStrategyStore pkg f w).world.trace.drop w.trace.length,
            ∀ a, ev ≠ Event.aggregatorStart a) := by
  refine ⟨CreateStrategyStore_receiver pkg f w, ?_, ?_⟩
  · intro e hA
    simp [Factory.CreateStrategyStore, World.emit, ho, hst, hA]
  · intro hA
    simp [Factory.CreateStrategyStore, strategyStoreStartCall, World.emit, ho, hst, hA]

/-- Witness for C6 amended, on both branches: the fresh factory in a package
whose aggregator constructor fails, and a configured factory whose Initialize
failed at CreateLock in a package whose aggregator constructor succeeds. -/
theorem CreateStrategyStore_uninitialized_witness :
    ((Factory.CreateStrategyStore pkgAggFails NewFactory emptyWorld).out
        = Outcome.returned (none, none, some ⟨"cannot build aggregator"⟩)
      ∧ (Factory.CreateStrategyStore pkgAggFails NewFactory emptyWorld).world.trace
        = [ Event.newStrategyStore ⟨0, 0, 0⟩ ⟨0⟩ none none,
            Event.newAggregator ⟨0, 0, 0⟩ ⟨0⟩ ⟨0⟩ none none ])
    ∧ ((Factory.CreateStrategyStore pkgOk
          (Factory.Initialize pkgOk configuredFactory emptyWorld ⟨3⟩ (some ssLockFails)
            ⟨4⟩).factory emptyWorld).out
        = Outcome.panicked
      ∧ (Factory.CreateStrategyStore pkgOk
          (Factory.Initialize pkgOk configuredFactory emptyWorld ⟨3⟩ (some ssLockFails)
            ⟨4⟩).factory emptyWorld).world.trace
        = [ Event.newStrategyStore ⟨10, 60, 5⟩ ⟨4⟩ none none,
            Event.newAggregator ⟨10, 60, 5⟩ ⟨4⟩ ⟨3⟩ none none,
            Event.strategyStoreStart ⟨1⟩ ]) :=
  have h1 := (CreateStrategyStore_uninitialized pkgAggFails NewFactory emptyWorld Options.zero
    rfl rfl).2.1 ⟨"cannot build aggregator"⟩ rfl
  have h2 := (CreateStrategyStore_uninitialized pkgOk
    (Factory.Initialize pkgOk configuredFactory emptyWorld ⟨3⟩ (some ssLockFails) ⟨4⟩).factory
    emptyWorld ⟨10, 60, 5⟩ rfl rfl).2.2 rfl
  ⟨h1, h2.1, h2.2.1⟩

/-- C7: let f be the receiver after a successful Initialize and w any later
world. The participant p of f is not nil, and Close returns what p.Close
returns: nil when p.Close returns nil, and e itself when p.Close returns error
e. The only call made is one Close on p. -/
theorem Close_returns_participant_result (pkg : Pkg) (f0 : Factory) (w0 : World)
    (mf : MetricsFactory) (ssf : Option SamplingStoreFactory) (lg : Logger) (f : Factory)
    (w1 w : World)
    (hinit : Factory.Initialize pkg f0 w0 mf ssf lg = ⟨Outcome.returned none, f, w1⟩) :
    ∃ p, f.participant = some p
      ∧ (Factory.Close pkg f w).out = Outcome.returned (pkg.participantClose p)
      ∧ (pkg.participantClose p = none → (Factory.Close pkg f w).out = Outcome.returned none)
      ∧ (∀ e, pkg.participantClose p = some e →
          (Factory.Close pkg f w).out = Outcome.returned (some e))
      ∧ (Factory.Close pkg f w).world.trace = w.trace ++ [Event.participantClose p] := by
  obtain ⟨o1, p, -, -, hp, -, -⟩ := Initialize_ok_inv pkg f0 w0 mf ssf lg f w1 hinit
  refine ⟨p, hp, ?_, ?_, ?_, ?_⟩
  · simp [Factory.Close, participantCloseCall, hp]
  · intro h
    simp [Factory.Close, participantCloseCall, hp, h]
  · intro e h
    simp [Factory.Close, participantCloseCall, hp, h]
  · simp [Factory.Close, participantCloseCall, World.emit, hp]

/-- Witness for C7: an initialised factory whose participant fails to release
its lock; Close returns that error. -/
theorem Close_returns_participant_result_witness :
    ∃ p : Participant,
      (Factory.Initialize pkgCloseFails configuredFactory emptyWorld ⟨3⟩ (some ssOk)
        ⟨4⟩).factory.participant = some p
      ∧ (Factory.Close pkgCloseFails
          (Factory.Initialize pkgCloseFails configuredFactory emptyWorld ⟨3⟩ (some ssOk)
            ⟨4⟩).factory
          (Factory.Initialize pkgCloseFails configuredFactory emptyWorld ⟨3⟩ (some ssOk)
            ⟨4⟩).world).out
        = Outcome.returned (some ⟨"failed to release lock"⟩) :=
  match Close_returns_participant_result pkgCloseFails configuredFactory emptyWorld ⟨3⟩
    (some ssOk) ⟨4⟩
    (Factory.Initialize pkgCloseFails configuredFactory emptyWorld ⟨3⟩ (some ssOk) ⟨4⟩).factory
    (Factory.Initialize pkgCloseFails configuredFactory emptyWorld ⟨3⟩ (some ssOk) ⟨4⟩).world
    (Factory.Initialize pkgCloseFails configuredFactory emptyWorld ⟨3⟩ (some ssOk) ⟨4⟩).world
    rfl with
  | ⟨p, h1, _, _, h3, _⟩ => ⟨p, h1, h3 ⟨"failed to release lock"⟩ rfl⟩

/-- C10: let f be the receiver after a successful Initialize and w any later
world. CreateStrategyStore leaves the receiver unchanged, so f is also the
receiver once the workers are built. Close leaves every field of f unchanged and
allocates nothing, and every call it makes is a Close on the participant of f:
none of them is a call on a strategy store, an aggregator, a lock or a sampling
store. This holds for every result of the participant's Close. -/
theorem Close_frame (pkg : Pkg) (f0 : Factory) (w0 : World) (mf : MetricsFactory)
    (ssf : Option SamplingStoreFactory) (lg : Logger) (f : Factory) (w1 w : World)
    (hinit : Factory.Initialize pkg f0 w0 mf ssf lg = ⟨Outcome.returned none, f, w1⟩) :
    (Factory.CreateStrategyStore pkg f w).factory = f
    ∧ (Factory.Close pkg f w).factory = f
    ∧ (Factory.Close pkg (Factory.CreateStrategyStore pkg f w).factory
        (Factory.CreateStrategyStore pkg f w).world).factory = f
    ∧ (Factory.Close pkg f w).world.next = w.next
    ∧ ∃ p evs, f.participant = some p
        ∧ (Factory.Close pkg f w).world.trace = w.trace ++ evs
        ∧ ∀ ev ∈ evs, ev = Event.participantClose p
          ∧ (∀ s, ev ≠ Event.strategyStoreStart s ∧ ev ≠ Event.strategyStoreClose s)
          ∧ (∀ a, ev ≠ Event.aggregatorStart a ∧ ev ≠ Event.aggregatorClose a)
          ∧ (∀ l, ev ≠ Event.lockOp l)
          ∧ (∀ st, ev ≠ Event.storeOp st) := by
  obtain ⟨o1, p, ho, -, hp, -, -⟩ := Initialize_ok_inv pkg f0 w0 mf ssf lg f w1 hinit
  have hc : (Factory.CreateStrategyStore pkg f w).factory = f :=
    CreateStrategyStore_receiver pkg f w
  refine ⟨hc, by simp [Factory.Close, participantCloseCall, hp], ?_, by simp [Factory.Close, participantCloseCall, World.emit, hp], ?_⟩
  · rw [hc]
    simp [Factory.Close, participantCloseCall, hp]
  · refine ⟨p, [Event.participantClose p], hp, by simp [Factory.Close, participantCloseCall, World.emit, hp], ?_⟩
    intro ev hev
    simp only [List.mem_singleton] at hev
    subst hev
    simp

/-- Witness for C10: an initialised factory whose participant fails to release
its lock, closed after its workers were built. -/
theorem Close_frame_witness :
    (Factory.Close pkgCloseFails
      (Factory.CreateStrategyStore pkgCloseFails
        (Factory.Initialize pkgCloseFails configuredFactory emptyWorld ⟨3⟩ (some ssOk)
          ⟨4⟩).factory
        (Factory.Initialize pkgCloseFails configuredFactory emptyWorld ⟨3⟩ (some ssOk)
          ⟨4⟩).world).factory
      (Factory.CreateStrategyStore pkgCloseFails
        (Factory.Initialize pkgCloseFails configuredFactory emptyWorld ⟨3⟩ (some ssOk)
          ⟨4⟩).factory
        (Factory.Initialize pkgCloseFails configuredFactory emptyWorld ⟨3⟩ (some ssOk)
          ⟨4⟩).world).world).factory
    = (Factory.Initialize pkgCloseFails configuredFactory emptyWorld ⟨3⟩ (some ssOk)
        ⟨4⟩).factory :=
  (Close_frame pkgCloseFails configuredFactory emptyWorld ⟨3⟩ (some ssOk) ⟨4⟩
    (Factory.Initialize pkgCloseFails configuredFactory emptyWorld ⟨3⟩ (some ssOk) ⟨4⟩).factory
    (Factory.Initialize pkgCloseFails configuredFactory emptyWorld ⟨3⟩ (some ssOk) ⟨4⟩).world
    (Factory.Initialize pkgCloseFails configuredFactory emptyWorld ⟨3⟩ (some ssOk) ⟨4⟩).world
    rfl).2.2.1

end Adaptive
